import Mathlib

set_option autoImplicit false
set_option maxRecDepth 8000

/-! Verification development for the module-aware symbol resolver
(`src/resolver.rs`) and the transitive type-usage collector (`src/main.rs`)
of the tauri-codegen repository.

Modelling conventions:
* Rust `PathBuf` is a list of path components (`PathBuf` below).
* A module path is a list of segments (`ModulePath`).
* Every `HashMap` is an association list looked up by key (`alookup`),
  inserted into with replace-or-append semantics (`ainsert`); `Vec` is `List`.
* The mutually recursive pair `resolve_path` / `resolve_module_path` is not
  structurally terminating (nothing in the Rust code bounds the recursion
  through explicit re-export chains), so both take an explicit fuel argument
  and return `ROut`: `ok r` for a normal return, `outOfFuel` when the fuel is
  exhausted, `panicked` for an out-of-bounds index (`segments[0]` on an empty
  slice). -/

/-- Rust `PathBuf`, modelled as the list of its path components. -/
abbrev PathBuf := List String

/-- A module path, e.g. `["crate", "commands"]` (`type ModulePath = Vec<String>`). -/
abbrev ModulePath := List String

/-- Association-list lookup, first matching key: the embedding of `HashMap::get`. -/
def alookup {α β : Type} [DecidableEq α] (k : α) : List (α × β) → Option β
  | [] => none
  | p :: rest => if p.1 = k then some p.2 else alookup k rest

/-- Association-list insert with replace-or-append semantics: `HashMap::insert`. -/
def ainsert {α β : Type} [DecidableEq α] (k : α) (v : β) : List (α × β) → List (α × β)
  | [] => [(k, v)]
  | p :: rest => if p.1 = k then (k, v) :: rest else p :: ainsert k v rest

/-- `TypeKind` from `resolver.rs` (type aliases are stored as `Struct`, see
`parse_items` line 136). -/
inductive TypeKind where
  | struct
  | enum
deriving DecidableEq, Repr

/-- `FileScope` from `resolver.rs`: imports store the `ImportedType.path`
directly (its only field). -/
structure FileScope where
  module_path : ModulePath
  local_types : List (String × TypeKind)
  imports : List (String × ModulePath)
  wildcard_imports : List ModulePath
  type_aliases : List (String × String)
deriving DecidableEq, Repr

/-- `ResolutionResult` from `resolver.rs`. -/
inductive ResolutionResult where
  | Found (file : PathBuf)
  | FoundWithAlias (file : PathBuf) (originalName : String)
  | NotFound
  | Ambiguous (files : List PathBuf)
deriving DecidableEq, Repr

/-- `ModuleResolver` from `resolver.rs`: the frozen scope table and global index. -/
structure ModuleResolver where
  files : List (PathBuf × FileScope)
  type_definitions : List (String × List PathBuf)
  module_to_file : List (ModulePath × PathBuf)
deriving DecidableEq, Repr

/-- Outcome of a fueled resolver call: a normal `ResolutionResult`, fuel
exhaustion (the Rust recursion did not bottom out within the given depth),
or a Rust panic (out-of-bounds index). -/
inductive ROut where
  | ok (r : ResolutionResult)
  | outOfFuel
  | panicked
deriving DecidableEq, Repr

/-- `register_expanded_type_if_missing` (resolver.rs:87): record a
cargo-expand fact only if the name has no entry at all yet. -/
def registerExpandedTypeIfMissing (st : ModuleResolver) (typeName : String)
    (sourcePath : PathBuf) : ModuleResolver :=
  if (alookup typeName st.type_definitions).isSome then st
  else { st with type_definitions := st.type_definitions ++ [(typeName, [sourcePath])] }

/-- `register_type_definition` (resolver.rs:156): append the file to the
name's location list unless already present. -/
def registerTypeDefinition (st : ModuleResolver) (name : String)
    (path : PathBuf) : ModuleResolver :=
  match alookup name st.type_definitions with
  | none => { st with type_definitions := st.type_definitions ++ [(name, [path])] }
  | some locations =>
      if path ∈ locations then st
      else { st with
              type_definitions := ainsert name (locations ++ [path]) st.type_definitions }

/-- Registration effects of `parse_file` (resolver.rs:98) with the syntactic
facts already extracted: register every locally declared name, then record
the module-path and file-scope table entries. The `syn` front end itself is
an external collaborator per the spec and is not modelled. -/
def parseFileFacts (st : ModuleResolver) (path : PathBuf) (scope : FileScope) :
    ModuleResolver :=
  let st := scope.local_types.foldl (fun s nk => registerTypeDefinition s nk.1 path) st
  { st with
      module_to_file := ainsert scope.module_path path st.module_to_file,
      files := ainsert path scope st.files }

/-- `are_siblings` (resolver.rs:534). -/
def areSiblings (pathA pathB : ModulePath) : Bool :=
  if pathA.length < 2 || pathB.length < 2 then false
  else if pathA.length ≠ pathB.length then false
  else pathA.dropLast = pathB.dropLast

/-- `try_resolve_from_definitions` (resolver.rs:417). -/
def tryResolveFromDefinitions (st : ModuleResolver) (typeName : String) :
    ResolutionResult :=
  match alookup typeName st.type_definitions with
  | some [f] => .Found f
  | some (f :: g :: rest) => .Ambiguous (f :: g :: rest)
  | some [] => .NotFound
  | none => .NotFound

/-- `normalize_relative_path` (resolver.rs:430). -/
def normalizeRelativePath (relativePath : ModulePath) (fromModule : ModulePath) :
    ModulePath :=
  if relativePath = [] then fromModule
  else if relativePath.head? = some ("crate") then relativePath
  else relativePath.foldl
    (fun result segment =>
      if segment = "super" then (if result.length > 1 then result.dropLast else result)
      else if segment = "self" then result
      else result ++ [segment])
    fromModule

/-- `find_type_in_module` (resolver.rs:461): single-level local lookup in the
module registered for `modulePath`. -/
def findTypeInModule (st : ModuleResolver) (typeName : String)
    (modulePath : ModulePath) : Option PathBuf :=
  match alookup modulePath st.module_to_file with
  | some filePath =>
      match alookup filePath st.files with
      | some scope =>
          if (alookup typeName scope.local_types).isSome then some filePath else none
      | none => none
  | none => none

/-- The wildcard-import loop of `resolve_simple_name` step 3 and
`resolve_module_path` step 3: first wildcard target whose module declares the
name locally. -/
def firstWildcardHit (st : ModuleResolver) (typeName : String) (scope : FileScope) :
    Option PathBuf :=
  scope.wildcard_imports.foldl
    (fun acc w =>
      match acc with
      | some f => some f
      | none => findTypeInModule st typeName (normalizeRelativePath w scope.module_path))
    none

/-- `wrap_alias_if_needed` (resolver.rs:298). -/
def wrapAliasIfNeeded (result : ResolutionResult) (importName : String)
    (importPath : ModulePath) : ResolutionResult :=
  let originalName := importPath.getLast?.getD ("")
  if originalName ≠ importName ∧ originalName ≠ "" then
    match result with
    | .Found p => .FoundWithAlias p originalName
    | other => other
  else result

/-- Lift `wrapAliasIfNeeded` over the fueled outcome. -/
def wrapROut (r : ROut) (importName : String) (importPath : ModulePath) : ROut :=
  match r with
  | .ok res => .ok (wrapAliasIfNeeded res importName importPath)
  | other => other

/-- `resolve_canonical_path` (resolver.rs:341), with the first segment split
off (the Rust code indexes `segments[0]`, which its callers guarantee is in
bounds). -/
def resolveCanonicalPath (first : String) (rest : List String) (scope : FileScope) :
    Option ModulePath :=
  let currentPath := if first = "crate" then ["crate"] else scope.module_path
  let iterSegs := if first = "crate" then rest else first :: rest
  iterSegs.foldl
    (fun acc seg =>
      match acc with
      | none => none
      | some cur =>
          if seg = "super" then (if cur.length > 1 then some cur.dropLast else none)
          else if seg = "self" then some cur
          else some (cur ++ [seg]))
    (some currentPath)

mutual

/-- `resolve_module_path` (resolver.rs:375): local declaration, then explicit
re-export (recursing through `resolve_path`), then wildcard re-exports, then
the global-index fallback. -/
def resolveModulePath (st : ModuleResolver) : Nat → ModulePath → ROut
  | 0, _ => .outOfFuel
  | fuel + 1, modulePath =>
      if modulePath.length < 2 then .ok .NotFound
      else
        let typeName := modulePath.getLast?.getD ("")
        let modPath := modulePath.dropLast
        match alookup modPath st.module_to_file with
        | some filePath =>
            match alookup filePath st.files with
            | some scope =>
                if (alookup typeName scope.local_types).isSome then .ok (.Found filePath)
                else match alookup typeName scope.imports with
                  | some importPath =>
                      wrapROut (resolvePath st fuel importPath scope) typeName importPath
                  | none =>
                      match firstWildcardHit st typeName scope with
                      | some foundFile => .ok (.Found foundFile)
                      | none => .ok (tryResolveFromDefinitions st typeName)
            | none => .ok (tryResolveFromDefinitions st typeName)
        | none => .ok (tryResolveFromDefinitions st typeName)

/-- `resolve_path` (resolver.rs:319): an empty segment list models the Rust
panic on `segments[0]`. -/
def resolvePath (st : ModuleResolver) : Nat → List String → FileScope → ROut
  | 0, _, _ => .outOfFuel
  | fuel + 1, segments, scope =>
      match segments with
      | [] => .panicked
      | first :: rest =>
          match alookup first scope.imports with
          | some importedPath => resolveModulePath st fuel (importedPath ++ rest)
          | none =>
              match resolveCanonicalPath first rest scope with
              | some path => resolveModulePath st fuel path
              | none => .ok .NotFound

end

/-- Step 4 of `resolve_simple_name` (resolver.rs:267-294): global fallback by
name with the sibling tie-break, factored out with the querying file's module
path as parameter. -/
def globalNameFallback (st : ModuleResolver) (name : String)
    (fromModule : ModulePath) : ResolutionResult :=
  match alookup name st.type_definitions with
  | some locations =>
      match locations with
      | [f] => .Found f
      | _ =>
          let siblings := locations.filter (fun loc =>
            match alookup loc st.files with
            | some locScope => areSiblings locScope.module_path fromModule
            | none => false)
          match siblings with
          | [f] => .Found f
          | _ => .Ambiguous locations
  | none => .NotFound

/-- `resolve_simple_name` (resolver.rs:241). -/
def resolveSimpleName (st : ModuleResolver) (fuel : Nat) (name : String)
    (scope : FileScope) (fromFile : PathBuf) : ROut :=
  if (alookup name scope.local_types).isSome then .ok (.Found fromFile)
  else match alookup name scope.imports with
    | some importedPath =>
        wrapROut (resolveModulePath st fuel importedPath) name importedPath
    | none =>
        match firstWildcardHit st name scope with
        | some file => .ok (.Found file)
        | none => .ok (globalNameFallback st name scope.module_path)

/-- Split a character list on the `::` separator, left to right, like Rust's
`str::split("::")`. -/
def splitSep : List Char → List Char → List String
  | [], cur => [String.mk cur.reverse]
  | ':' :: ':' :: rest, cur => String.mk cur.reverse :: splitSep rest []
  | c :: rest, cur => splitSep rest (c :: cur)

/-- `type_path.split("::").filter(|s| !s.is_empty())` from `resolve_type`. -/
def parseSegments (typePath : String) : List String :=
  (splitSep typePath.data []).filter (fun s => s ≠ "")

/-- `resolve_type` (resolver.rs:218). A non-singleton segment list (including
the empty one) goes to `resolvePath`. -/
def resolveType (st : ModuleResolver) (fuel : Nat) (typePath : String)
    (fromFile : PathBuf) : ROut :=
  let segments := parseSegments typePath
  let typeName := segments.getLast?.getD ("")
  match alookup fromFile st.files with
  | none => .ok (tryResolveFromDefinitions st typeName)
  | some scope =>
      match segments with
      | [name] => resolveSimpleName st fuel name scope fromFile
      | _ => resolvePath st fuel segments scope

/-- `resolve_single_alias` (resolver.rs:501): local alias table, then the
imported-alias source, then every other scanned file's alias table. -/
def resolveSingleAlias (st : ModuleResolver) (fuel : Nat) (typeName : String)
    (fromFile : PathBuf) : Option String :=
  let fromScopeHit :=
    match alookup fromFile st.files with
    | some scope =>
        match alookup typeName scope.type_aliases with
        | some target => some target
        | none =>
            match alookup typeName scope.imports with
            | some importedPath =>
                match resolveModulePath st fuel importedPath with
                | .ok (.Found sourceFile) =>
                    match alookup sourceFile st.files with
                    | some sourceScope =>
                        let actualName := importedPath.getLast?.getD typeName
                        alookup actualName sourceScope.type_aliases
                    | none => none
                | _ => none
            | none => none
    | none => none
  match fromScopeHit with
  | some t => some t
  | none =>
      st.files.foldl
        (fun acc entry =>
          match acc with
          | some t => some t
          | none =>
              if entry.1 ≠ fromFile then alookup typeName entry.2.type_aliases else none)
        none

/-- The bounded loop of `resolve_alias_target`: up to `n` hops, tracking
whether any hop succeeded. -/
def aliasFollow (st : ModuleResolver) (fuel : Nat) (fromFile : PathBuf) :
    Nat → String → Bool → String × Bool
  | 0, cur, found => (cur, found)
  | n + 1, cur, found =>
      match resolveSingleAlias st fuel cur fromFile with
      | some target => aliasFollow st fuel fromFile n target true
      | none => (cur, found)

/-- `resolve_alias_target` (resolver.rs:477): follow the alias chain for at
most 10 hops; `none` when no hop ever succeeded. -/
def resolveAliasTarget (st : ModuleResolver) (fuel : Nat) (typeName : String)
    (fromFile : PathBuf) : Option String :=
  let out := aliasFollow st fuel fromFile 10 typeName false
  if out.2 then some out.1 else none

/-! The usage collector (`src/main.rs`). -/

/-- `RustType` from `parser/mod.rs`. -/
inductive RustType where
  | primitive (name : String)
  | vec (inner : RustType)
  | option (inner : RustType)
  | result (ok : RustType)
  | hashMap (key : RustType) (value : RustType)
  | tuple (tupleTypes : List RustType)
  | custom (name : String)
  | generic (name : String)
  | unit
  | unknown (desc : String)

/-- `StructField` from `parser/mod.rs`. -/
structure StructField where
  name : String
  ty : RustType

/-- `RustStruct` from `parser/mod.rs` (generic parameter list omitted: the
collector never reads it). -/
structure RustStruct where
  name : String
  fields : List StructField
  source_file : PathBuf

/-- `VariantData` from `parser/mod.rs`. -/
inductive VariantData where
  | unitVariant
  | tupleVariant (types : List RustType)
  | structVariant (fields : List StructField)

/-- `EnumVariant` from `parser/mod.rs`. -/
structure EnumVariant where
  name : String
  data : VariantData

/-- `RustEnum` from `parser/mod.rs`. -/
structure RustEnum where
  name : String
  variants : List EnumVariant
  source_file : PathBuf

/-- `TauriCommand` from the parser, with the `source_file` field the command
parser records (`parser/command.rs`). -/
structure TauriCommand where
  name : String
  args : List (String × RustType)
  return_type : Option RustType
  source_file : PathBuf

/-- `ParseResult` from `parser/mod.rs`. -/
structure ParseResult where
  commands : List TauriCommand
  structs : List RustStruct
  enums : List RustEnum

/-- The `resolved` / `conflicts` pair threaded through `collect_used_types`
(`TypeCollectionResult` in main.rs). -/
structure CollectorState where
  resolved : List (String × PathBuf)
  conflicts : List (String × List PathBuf)
deriving DecidableEq, Repr

/-- Modelled from the spec: `main.rs` consumes `resolver.resolve_type(..)` as
an `Option`-returning lookup (`if let Some(source) = ...`), but the snapshot's
`resolver.rs` returns a `ResolutionResult`; the adapter between the two is
missing from the source tree. Per the spec (§4.3 step 1 and §7), `Found` and
`FoundWithAlias` are the successful outcomes and yield the file; `NotFound`
and `Ambiguous` yield nothing and are dropped silently. -/
def resolutionFile : ResolutionResult → Option PathBuf
  | .Found f => some f
  | .FoundWithAlias f _ => some f
  | .NotFound => none
  | .Ambiguous _ => none

/-- A resolver call as the collector sees it: resolve with the given fuel and
project the successful outcomes (fuel exhaustion, which the Rust code cannot
report, also yields nothing). -/
def resolveVia (st : ModuleResolver) (fuel : Nat) (name : String)
    (fromFile : PathBuf) : Option PathBuf :=
  match resolveType st fuel name fromFile with
  | .ok r => resolutionFile r
  | _ => none

/-- The resolution-merge rule of `collect_types_with_resolver`
(main.rs:383-396), repeated verbatim in the closure loop (main.rs:319-331 and
349-361): an unsuccessful resolution changes nothing; a first successful
resolution records `resolved[name] = source`; a second successful resolution
to the same file changes nothing; a different file seeds `conflicts[name]`
with the originally recorded file and appends the new file unless already
listed. -/
def recordResolution (name : String) (res : Option PathBuf) (cs : CollectorState) :
    CollectorState :=
  match res with
  | none => cs
  | some source =>
      match alookup name cs.resolved with
      | none => { cs with resolved := cs.resolved ++ [(name, source)] }
      | some existing =>
          if existing = source then cs
          else
            match alookup name cs.conflicts with
            | none => { cs with conflicts := cs.conflicts ++ [(name, [existing, source])] }
            | some l =>
                if source ∈ l then cs
                else { cs with conflicts := ainsert name (l ++ [source]) cs.conflicts }

mutual

/-- `collect_types_with_resolver` (main.rs:375): walk a `RustType`
structurally and merge every custom reference through `recordResolution`. -/
def collectTy (resolve : String → PathBuf → Option PathBuf) (fromFile : PathBuf) :
    RustType → CollectorState → CollectorState
  | .custom name, cs => recordResolution name (resolve name fromFile) cs
  | .vec inner, cs => collectTy resolve fromFile inner cs
  | .option inner, cs => collectTy resolve fromFile inner cs
  | .result okTy, cs => collectTy resolve fromFile okTy cs
  | .hashMap key value, cs =>
      collectTy resolve fromFile value (collectTy resolve fromFile key cs)
  | .tuple ts, cs => collectTyList resolve fromFile ts cs
  | _, cs => cs

/-- The tuple case of `collect_types_with_resolver`. -/
def collectTyList (resolve : String → PathBuf → Option PathBuf) (fromFile : PathBuf) :
    List RustType → CollectorState → CollectorState
  | [], cs => cs
  | t :: rest, cs => collectTyList resolve fromFile rest (collectTy resolve fromFile t cs)

end

mutual

/-- `collect_custom_types_recursive` (main.rs:421): accumulate custom names,
deduplicated, in first-occurrence order. -/
def collectCustomTypesRec : RustType → List String → List String
  | .custom name, acc => if name ∈ acc then acc else acc ++ [name]
  | .vec inner, acc => collectCustomTypesRec inner acc
  | .option inner, acc => collectCustomTypesRec inner acc
  | .result okTy, acc => collectCustomTypesRec okTy acc
  | .hashMap key value, acc => collectCustomTypesRec value (collectCustomTypesRec key acc)
  | .tuple ts, acc => collectCustomTypesRecList ts acc
  | _, acc => acc

/-- The tuple case of `collect_custom_types_recursive`. -/
def collectCustomTypesRecList : List RustType → List String → List String
  | [], acc => acc
  | t :: rest, acc => collectCustomTypesRecList rest (collectCustomTypesRec t acc)

end

/-- `collect_custom_types_from_rust_type` (main.rs:415). -/
def collectCustomTypesFromRustType (ty : RustType) : List String :=
  collectCustomTypesRec ty []

/-- `struct_by_file` lookup (main.rs:277): the maps are built by
`collect()`-ing an iterator into a `HashMap`, so a later entry with the same
`(name, source_file)` key overwrites an earlier one — hence the last match. -/
def structByFile (structs : List RustStruct) (name : String) (file : PathBuf) :
    Option RustStruct :=
  (structs.filter (fun s => s.name = name ∧ s.source_file = file)).getLast?

/-- `enum_by_file` lookup (main.rs:282), same last-entry-wins semantics. -/
def enumByFile (enums : List RustEnum) (name : String) (file : PathBuf) :
    Option RustEnum :=
  (enums.filter (fun e => e.name = name ∧ e.source_file = file)).getLast?

/-- One nested-name step of the closure loop (main.rs:318-331): resolve from
the owning file; a new successful resolution is recorded and pushed onto the
worklist (list head = `Vec` tail, matching `push`/`pop` at the end), any
other outcome only merges via `recordResolution`. -/
def closureStep (resolve : String → PathBuf → Option PathBuf) (ctxFile : PathBuf)
    (acc : CollectorState × List (String × PathBuf)) (t : String) :
    CollectorState × List (String × PathBuf) :=
  match resolve t ctxFile with
  | none => acc
  | some source =>
      let isNew := (alookup t acc.1.resolved).isNone
      let cs := recordResolution t (some source) acc.1
      if isNew then (cs, (t, source) :: acc.2) else (cs, acc.2)

/-- The nested-type names of one variant (main.rs:339-347). -/
def variantNestedNames : VariantData → List String
  | .unitVariant => []
  | .tupleVariant types => types.flatMap collectCustomTypesFromRustType
  | .structVariant fields => fields.flatMap (fun f => collectCustomTypesFromRustType f.ty)

/-- Expand one popped `(name, file)` worklist item (main.rs:314-364): struct
fields first, then enum variants, both looked up by the pair itself and
resolved with the owning file as context. -/
def expandItem (resolve : String → PathBuf → Option PathBuf) (pr : ParseResult)
    (typeName : String) (typeFile : PathBuf)
    (acc : CollectorState × List (String × PathBuf)) :
    CollectorState × List (String × PathBuf) :=
  let acc :=
    match structByFile pr.structs typeName typeFile with
    | some s =>
        s.fields.foldl
          (fun a fld => (collectCustomTypesFromRustType fld.ty).foldl
            (closureStep resolve typeFile) a)
          acc
    | none => acc
  match enumByFile pr.enums typeName typeFile with
  | some e =>
      e.variants.foldl
        (fun a v => (variantNestedNames v.data).foldl (closureStep resolve typeFile) a)
        acc
  | none => acc

/-- The worklist loop of `collect_used_types` (main.rs:307-365), fueled: each
fuel unit pays for one pop. The `processed` set skips an exact `(name, file)`
pair that was already expanded. -/
def closureLoop (resolve : String → PathBuf → Option PathBuf) (pr : ParseResult) :
    Nat → List (String × PathBuf) → List (String × PathBuf) → CollectorState →
    CollectorState
  | 0, _, _, cs => cs
  | _ + 1, [], _, cs => cs
  | fuel + 1, (n, f) :: rest, processed, cs =>
      if (n, f) ∈ processed then closureLoop resolve pr fuel rest processed cs
      else
        let out := expandItem resolve pr n f (cs, rest)
        closureLoop resolve pr fuel out.2 ((n, f) :: processed) out.1

/-- The seeding phase of `collect_used_types` (main.rs:289-298): arguments in
order, then the optional return type, for every command in order. -/
def seedTypes (resolve : String → PathBuf → Option PathBuf)
    (commands : List TauriCommand) : CollectorState :=
  commands.foldl
    (fun cs cmd =>
      let cs := cmd.args.foldl (fun a arg => collectTy resolve cmd.source_file arg.2 a) cs
      match cmd.return_type with
      | some retTy => collectTy resolve cmd.source_file retTy cs
      | none => cs)
    ⟨[], []⟩

/-- `collect_used_types` (main.rs:269): seed from the command signatures, then
run the closure loop. The initial worklist `order` is, in Rust, the seeded
`resolved` map in `HashMap` iteration order — an incidental order that is not
a function of the inputs, so it is passed explicitly here. -/
def collectUsedTypes (resolve : String → PathBuf → Option PathBuf)
    (pr : ParseResult) (order : List (String × PathBuf)) (fuel : Nat) :
    CollectorState :=
  closureLoop resolve pr fuel order [] (seedTypes resolve pr.commands)

/-! Theorems. -/

theorem alookup_nil {α β : Type} [DecidableEq α] (k : α) :
    alookup k ([] : List (α × β)) = none := rfl

theorem alookup_cons {α β : Type} [DecidableEq α] (k a : α) (b : β)
    (l : List (α × β)) :
    alookup k ((a, b) :: l) = if a = k then some b else alookup k l := rfl

/-- Spec §4.1 step 4, stated from the spec's words: "Global fallback by name:
exactly one candidate file → `Found`; more than one → apply a sibling
tie-break (candidate's module path shares the same parent and same depth as
the querying file's module path); exactly one sibling survives →
`Found(that one)`; otherwise → `Ambiguous(all candidates, first-seen
order)`." A candidate's module path is read off its file scope; a candidate
without a scope, or whose module path is root-level (fewer than two
segments, hence no parent module to share), is not a sibling. -/
def globalFallbackSpec (st : ModuleResolver) (name : String)
    (fromModule : ModulePath) : ResolutionResult :=
  match alookup name st.type_definitions with
  | some locations =>
      match locations with
      | [f] => .Found f
      | _ =>
          let siblings := locations.filter (fun loc =>
            match alookup loc st.files with
            | some locScope => areSiblings locScope.module_path fromModule
            | none => false)
          match siblings with
          | [f] => .Found f
          | _ => .Ambiguous locations
  | none => .NotFound

/-- C1: a single-segment name queried from a file whose scope has no local
declaration, no explicit import and no wildcard hit for it is resolved by the
global fallback: one candidate gives `Found`, several candidates give `Found`
of the unique sibling when exactly one candidate is a sibling of the querying
module, and otherwise `Ambiguous` over all candidates in first-seen order. -/
theorem claim1_single_name_global_fallback (st : ModuleResolver) (fuel : Nat)
    (s : String) (f : PathBuf) (n : String) (sc : FileScope)
    (hseg : parseSegments s = [n])
    (hscope : alookup f st.files = some sc)
    (hlocal : alookup n sc.local_types = none)
    (himport : alookup n sc.imports = none)
    (hwild : firstWildcardHit st n sc = none) :
    resolveType st fuel s f = .ok (globalFallbackSpec st n sc.module_path) := by
  unfold resolveType
  simp only [hseg, hscope]
  unfold resolveSimpleName
  rw [hlocal, himport, hwild]
  simp only [Option.isSome_none, Bool.false_eq_true, if_false]
  rfl

/-- Witness scope: `src/a.rs`, module `crate::a`, declares `U`. -/
def w1ScopeX : FileScope := ⟨["crate", "a"], [("U", .struct)], [], [], []⟩

/-- Witness scope: `src/b/c.rs`, module `crate::b::c`, declares `U`. -/
def w1ScopeY : FileScope := ⟨["crate", "b", "c"], [("U", .struct)], [], [], []⟩

/-- Witness scope: `src/z.rs`, module `crate::z`, declares nothing. -/
def w1ScopeZ : FileScope := ⟨["crate", "z"], [], [], [], []⟩

/-- Witness resolver: two unrelated declarations of `U`; the querying file is
a sibling of exactly one of them. -/
def w1St : ModuleResolver :=
  ⟨[(["src", "a.rs"], w1ScopeX), (["src", "b", "c.rs"], w1ScopeY),
    (["src", "z.rs"], w1ScopeZ)],
   [("U", [["src", "a.rs"], ["src", "b", "c.rs"]])],
   [(["crate", "a"], ["src", "a.rs"]), (["crate", "b", "c"], ["src", "b", "c.rs"]),
    (["crate", "z"], ["src", "z.rs"])]⟩

/-- C1 witness: with two global candidates for `U` and exactly one of them a
sibling of the querying module, the fallback picks the sibling. -/
theorem claim1_single_name_global_fallback_witness :
    resolveType w1St 0 ("U") ["src", "z.rs"] = .ok (.Found ["src", "a.rs"]) := by
  have h := claim1_single_name_global_fallback w1St 0 ("U") (["src", "z.rs"]) ("U")
    w1ScopeZ (by decide) (by decide) (by decide) (by decide) (by decide)
  rw [h]; decide

/-- C2: the shadowing order holds at every level. Top level: a local
declaration resolves to the querying file itself, regardless of imports,
wildcard imports, global-index entries or fuel. Module-path lookup
(`resolve_module_path`): a local declaration in the target module's file wins
outright; otherwise an explicit import of the name dictates the result (the
recursive resolution of the imported path, alias-wrapped); otherwise the
first wildcard hit wins; otherwise the global-index fallback decides. -/
theorem claim2_shadowing_order (st : ModuleResolver) (fuel : Nat) :
    (∀ (s : String) (f : PathBuf) (n : String) (sc : FileScope),
        parseSegments s = [n] → alookup f st.files = some sc →
        (alookup n sc.local_types).isSome = true →
        resolveType st fuel s f = .ok (.Found f))
    ∧ (∀ (pre : ModulePath) (tn : String) (tf : PathBuf) (tsc : FileScope),
        pre ≠ [] → alookup pre st.module_to_file = some tf →
        alookup tf st.files = some tsc →
        (((alookup tn tsc.local_types).isSome = true →
            resolveModulePath st (fuel + 1) (pre ++ [tn]) = .ok (.Found tf))
          ∧ (alookup tn tsc.local_types = none →
              ∀ ip, alookup tn tsc.imports = some ip →
                resolveModulePath st (fuel + 1) (pre ++ [tn]) =
                  wrapROut (resolvePath st fuel ip tsc) tn ip)
          ∧ (alookup tn tsc.local_types = none → alookup tn tsc.imports = none →
              ∀ w, firstWildcardHit st tn tsc = some w →
                resolveModulePath st (fuel + 1) (pre ++ [tn]) = .ok (.Found w))
          ∧ (alookup tn tsc.local_types = none → alookup tn tsc.imports = none →
              firstWildcardHit st tn tsc = none →
                resolveModulePath st (fuel + 1) (pre ++ [tn]) =
                  .ok (tryResolveFromDefinitions st tn)))) := by
  constructor
  · intro s f n sc hseg hscope hlocal
    unfold resolveType
    simp only [hseg, hscope]
    unfold resolveSimpleName
    rw [if_pos hlocal]
  · intro pre tn tf tsc hpre hmod hfile
    have hlen : ¬ (pre ++ [tn]).length < 2 := by
      have : 0 < pre.length := List.length_pos.mpr hpre
      simp [List.length_append]
      omega
    have hstep : ∀ fl : Nat, resolveModulePath st (fl + 1) (pre ++ [tn]) =
        (if (alookup tn tsc.local_types).isSome then ROut.ok (.Found tf)
         else match alookup tn tsc.imports with
           | some importPath =>
               wrapROut (resolvePath st fl importPath tsc) tn importPath
           | none =>
               match firstWildcardHit st tn tsc with
               | some foundFile => .ok (.Found foundFile)
               | none => .ok (tryResolveFromDefinitions st tn)) := by
      intro fl
      unfold resolveModulePath
      rw [if_neg hlen]
      simp only [List.getLast?_concat, Option.getD_some, List.dropLast_concat,
        hmod, hfile]
    refine ⟨?_, ?_, ?_, ?_⟩
    · intro hlocal
      rw [hstep fuel, if_pos hlocal]
    · intro hlocal ip himp
      rw [hstep fuel]
      rw [if_neg (by simp [hlocal])]
      rw [himp]
    · intro hlocal himp w hwild
      rw [hstep fuel]
      rw [if_neg (by simp [hlocal])]
      rw [himp, hwild]
    · intro hlocal himp hwild
      rw [hstep fuel]
      rw [if_neg (by simp [hlocal])]
      rw [himp, hwild]

/-- Witness scope: `src/t.rs`, module `crate::t`: declares `L`, explicitly
imports `I` from `crate::u::J`, wildcard-imports `crate::w`. -/
def w2ScopeT : FileScope :=
  ⟨["crate", "t"], [("L", .struct)], [("I", ["crate", "u", "J"])], [["crate", "w"]], []⟩

/-- Witness scope: `src/u.rs`, module `crate::u`, declares `J`. -/
def w2ScopeU : FileScope := ⟨["crate", "u"], [("J", .struct)], [], [], []⟩

/-- Witness scope: `src/w.rs`, module `crate::w`, declares `WT`. -/
def w2ScopeW : FileScope := ⟨["crate", "w"], [("WT", .struct)], [], [], []⟩

/-- Witness resolver for the shadowing-order theorem. -/
def w2St : ModuleResolver :=
  ⟨[(["src", "t.rs"], w2ScopeT), (["src", "u.rs"], w2ScopeU), (["src", "w.rs"], w2ScopeW)],
   [("L", [["src", "t.rs"]]), ("J", [["src", "u.rs"]]), ("WT", [["src", "w.rs"]])],
   [(["crate", "t"], ["src", "t.rs"]), (["crate", "u"], ["src", "u.rs"]),
    (["crate", "w"], ["src", "w.rs"])]⟩

/-- C2 witness: each precedence level exercised on a concrete resolver. -/
theorem claim2_shadowing_order_witness :
    resolveType w2St 5 ("L") ["src", "t.rs"] = .ok (.Found ["src", "t.rs"])
    ∧ resolveModulePath w2St (4 + 1) (["crate", "t"] ++ ["L"]) = .ok (.Found ["src", "t.rs"])
    ∧ resolveModulePath w2St (4 + 1) (["crate", "t"] ++ ["I"]) =
        wrapROut (resolvePath w2St 4 ["crate", "u", "J"] w2ScopeT) ("I") ["crate", "u", "J"]
    ∧ resolveModulePath w2St (4 + 1) (["crate", "t"] ++ ["WT"]) = .ok (.Found ["src", "w.rs"])
    ∧ resolveModulePath w2St (4 + 1) (["crate", "t"] ++ ["Z"]) =
        .ok (tryResolveFromDefinitions w2St ("Z")) := by
  refine ⟨?_, ?_, ?_, ?_, ?_⟩
  · exact (claim2_shadowing_order w2St 5).1 ("L") (["src", "t.rs"]) ("L") w2ScopeT
      (by decide) (by decide) (by decide)
  · exact (((claim2_shadowing_order w2St 4).2 (["crate", "t"]) ("L") (["src", "t.rs"])
      w2ScopeT (by decide) (by decide) (by decide)).1 (by decide))
  · exact (((claim2_shadowing_order w2St 4).2 (["crate", "t"]) ("I") (["src", "t.rs"])
      w2ScopeT (by decide) (by decide) (by decide)).2.1 (by decide)
      (["crate", "u", "J"]) (by decide))
  · exact (((claim2_shadowing_order w2St 4).2 (["crate", "t"]) ("WT") (["src", "t.rs"])
      w2ScopeT (by decide) (by decide) (by decide)).2.2.1 (by decide) (by decide)
      (["src", "w.rs"]) (by decide))
  · exact (((claim2_shadowing_order w2St 4).2 (["crate", "t"]) ("Z") (["src", "t.rs"])
      w2ScopeT (by decide) (by decide) (by decide)).2.2.2 (by decide) (by decide)
      (by decide))

/-- Module `crate::a` (file `src/a.rs`): re-exports `T` from `crate::b`. -/
def cycScopeA : FileScope := ⟨["crate", "a"], [], [("T", ["crate", "b", "T"])], [], []⟩

/-- Module `crate::b` (file `src/b.rs`): re-exports `T` from `crate::a`. -/
def cycScopeB : FileScope := ⟨["crate", "b"], [], [("T", ["crate", "a", "T"])], [], []⟩

/-- A frozen scope table with a cyclic explicit re-export pair: each of the
two modules imports `T` from the other, and nothing declares it. -/
def cycSt : ModuleResolver :=
  ⟨[(["src", "a.rs"], cycScopeA), (["src", "b.rs"], cycScopeB)],
   [],
   [(["crate", "a"], ["src", "a.rs"]), (["crate", "b"], ["src", "b.rs"])]⟩

theorem cyc_stepA (n : Nat) :
    resolveModulePath cycSt (n + 1) ["crate", "a", "T"] =
      wrapROut (resolvePath cycSt n ["crate", "b", "T"] cycScopeA) ("T")
        ["crate", "b", "T"] := by
  unfold resolveModulePath
  simp [cycSt, cycScopeA, alookup]

theorem cyc_stepB (n : Nat) :
    resolveModulePath cycSt (n + 1) ["crate", "b", "T"] =
      wrapROut (resolvePath cycSt n ["crate", "a", "T"] cycScopeB) ("T")
        ["crate", "a", "T"] := by
  unfold resolveModulePath
  simp [cycSt, cycScopeB, alookup]

theorem cyc_pathA (m : Nat) :
    resolvePath cycSt (m + 1) ["crate", "b", "T"] cycScopeA =
      resolveModulePath cycSt m ["crate", "b", "T"] := by
  unfold resolvePath
  simp [cycScopeA, alookup, resolveCanonicalPath]

theorem cyc_pathB (m : Nat) :
    resolvePath cycSt (m + 1) ["crate", "a", "T"] cycScopeB =
      resolveModulePath cycSt m ["crate", "a", "T"] := by
  unfold resolvePath
  simp [cycScopeB, alookup, resolveCanonicalPath]

/-- On the cyclic re-export pair, module-path resolution never returns: every
fuel budget is exhausted. -/
theorem cyc_loop (fuel : Nat) :
    resolveModulePath cycSt fuel ["crate", "a", "T"] = .outOfFuel
    ∧ resolveModulePath cycSt fuel ["crate", "b", "T"] = .outOfFuel := by
  induction fuel using Nat.strong_induction_on with
  | _ fuel ih =>
    match fuel with
    | 0 => exact ⟨rfl, rfl⟩
    | n + 1 =>
      constructor
      · rw [cyc_stepA n]
        cases n with
        | zero => rfl
        | succ m =>
            rw [cyc_pathA m, (ih m (by omega)).2]
            rfl
      · rw [cyc_stepB n]
        cases n with
        | zero => rfl
        | succ m =>
            rw [cyc_pathB m, (ih m (by omega)).1]
            rfl

/-- Divergence of the full entry point on the cyclic state: a plain helper
shared by the termination results below. -/
theorem cyc_resolveType_diverges (fuel : Nat) :
    resolveType cycSt fuel ("T") ["src", "a.rs"] = .outOfFuel := by
  have hseg : parseSegments ("T") = ["T"] := by decide
  have hscope : alookup (["src", "a.rs"] : PathBuf) cycSt.files = some cycScopeA := by
    decide
  have hlocal : alookup ("T") cycScopeA.local_types = none := by decide
  have himp : alookup ("T") cycScopeA.imports = some ["crate", "b", "T"] := by decide
  unfold resolveType
  simp only [hseg, hscope]
  unfold resolveSimpleName
  rw [hlocal, himp]
  simp only [Option.isSome_none, Bool.false_eq_true, if_false]
  rw [(cyc_loop fuel).2]
  rfl

/-- C3, counterexample: `resolve_type` does not terminate on every input.
On the frozen scope table `cycSt`, whose two modules each re-export `T` from
the other, the query `resolve_type("T", "src/a.rs")` never returns a
`ResolutionResult`, whatever recursion depth is allowed: there is no
visited-module guard in the code. -/
theorem claim3_termination_counterexample :
    ¬ (∀ (st : ModuleResolver) (s : String) (f : PathBuf),
        ∃ (fuel : Nat) (r : ResolutionResult), resolveType st fuel s f = .ok r) := by
  intro h
  obtain ⟨fuel, r, hr⟩ := h cycSt ("T") ["src", "a.rs"]
  rw [cyc_resolveType_diverges fuel] at hr
  exact ROut.noConfusion hr

/-- C3, amended: `resolve_type` carries no visited-module guard, so it need
not terminate: on a cyclic explicit re-export graph (two modules whose import
entries for the same name refer back to each other's modules) the mutual
recursion between path resolution and module-scope lookup recurs forever —
the fueled embedding exhausts every fuel budget on `cycSt`. Termination holds
only on inputs whose import-reference recursion bottoms out. -/
theorem claim3_cyclic_reexport_diverges (fuel : Nat) :
    resolveType cycSt fuel ("T") ["src", "a.rs"] = .outOfFuel :=
  cyc_resolveType_diverges fuel

/-- Module path of the i-th chain module: `crate::m::…::m` (i copies). -/
def chainModPath (i : Nat) : ModulePath := "crate" :: List.replicate i ("m")

/-- File defining the i-th chain module. -/
def chainFile (i : Nat) : PathBuf := "src" :: List.replicate i ("m")

/-- Scope of the i-th chain module in a chain of depth K: the deepest module
declares `T` locally, every other module only wildcard-re-exports the next
one. -/
def chainScope (K i : Nat) : FileScope :=
  if i = K then ⟨chainModPath i, [("T", .struct)], [], [], []⟩
  else ⟨chainModPath i, [], [], [chainModPath (i + 1)], []⟩

/-- The querying file's scope: wildcard-imports the first chain module. -/
def chainQScope : FileScope := ⟨["crate", "q"], [], [], [chainModPath 1], []⟩

/-- File-scope entries for chain modules i, i+1, … (`n` of them). -/
def chainFilesFrom (K i : Nat) : Nat → List (PathBuf × FileScope)
  | 0 => []
  | n + 1 => (chainFile i, chainScope K i) :: chainFilesFrom K (i + 1) n

/-- Module-to-file entries for chain modules i, i+1, … (`n` of them). -/
def chainModsFrom (i : Nat) : Nat → List (ModulePath × PathBuf)
  | 0 => []
  | n + 1 => (chainModPath i, chainFile i) :: chainModsFrom (i + 1) n

/-- The frozen resolver for a wildcard re-export chain of depth K: only the
deepest module declares `T`, so the global index lists exactly one file. -/
def chainSt (K : Nat) : ModuleResolver :=
  ⟨(["src", "q.rs"], chainQScope) :: chainFilesFrom K 1 K,
   [("T", [chainFile K])],
   (["crate", "q"], ["src", "q.rs"]) :: chainModsFrom 1 K⟩

/-- C4: for every chain depth K ≥ 1, querying the bare name `T` from the file
that wildcard-imports the head of the chain resolves to the file of the
deepest module — the one that declares `T` — whatever the fuel. (For K = 1
the wildcard import itself hits; for K ≥ 2 the single-level wildcard check
misses and the unique global candidate decides.) -/
theorem claim4_wildcard_chain_depth_k (K fuel : Nat) (hK : 1 ≤ K) :
    resolveType (chainSt K) fuel ("T") ["src", "q.rs"] =
      .ok (.Found (chainFile K)) := by
  obtain ⟨k, rfl⟩ : ∃ k, K = k + 1 := ⟨K - 1, by omega⟩
  have hseg : parseSegments ("T") = ["T"] := by decide
  have hscope : alookup (["src", "q.rs"] : PathBuf) (chainSt (k + 1)).files =
      some chainQScope := by
    show alookup (["src", "q.rs"] : PathBuf)
      ((["src", "q.rs"], chainQScope) :: chainFilesFrom (k + 1) 1 (k + 1)) = _
    rw [alookup_cons, if_pos rfl]
  unfold resolveType
  simp only [hseg, hscope]
  unfold resolveSimpleName
  rw [show alookup ("T") chainQScope.local_types = none from rfl]
  rw [show alookup ("T") chainQScope.imports = none from rfl]
  simp only [Option.isSome_none, Bool.false_eq_true, if_false]
  have hm1 : alookup (chainModPath 1) (chainSt (k + 1)).module_to_file =
      some (chainFile 1) := by
    show alookup (chainModPath 1)
      ((["crate", "q"], ["src", "q.rs"]) :: (chainModPath 1, chainFile 1)
        :: chainModsFrom 2 k) = _
    rw [alookup_cons, if_neg (by decide), alookup_cons, if_pos rfl]
  have hf1 : alookup (chainFile 1) (chainSt (k + 1)).files =
      some (chainScope (k + 1) 1) := by
    show alookup (chainFile 1)
      ((["src", "q.rs"], chainQScope) :: (chainFile 1, chainScope (k + 1) 1)
        :: chainFilesFrom (k + 1) 2 k) = _
    rw [alookup_cons, if_neg (by decide), alookup_cons, if_pos rfl]
  have hfwh : firstWildcardHit (chainSt (k + 1)) ("T") chainQScope =
      findTypeInModule (chainSt (k + 1)) ("T") (chainModPath 1) := by
    unfold firstWildcardHit
    show List.foldl _ none [chainModPath 1] = _
    rw [List.foldl_cons, List.foldl_nil]
    rw [show normalizeRelativePath (chainModPath 1) chainQScope.module_path =
      chainModPath 1 from by decide]
  rw [hfwh]
  cases k with
  | zero =>
      have hftm : findTypeInModule (chainSt 1) ("T") (chainModPath 1) =
          some (chainFile 1) := by decide
      rw [hftm]
  | succ n =>
      have hsc1 : chainScope (n + 2) 1 = ⟨chainModPath 1, [], [], [chainModPath 2], []⟩ := by
        unfold chainScope
        rw [if_neg (by omega)]
      have hftm : findTypeInModule (chainSt (n + 2)) ("T") (chainModPath 1) = none := by
        unfold findTypeInModule
        simp only [hm1, hf1, hsc1, alookup_nil, Option.isSome_none,
          Bool.false_eq_true, if_false]
      rw [hftm]
      show ROut.ok (globalNameFallback (chainSt (n + 2)) ("T") chainQScope.module_path) = _
      unfold globalNameFallback
      show ROut.ok (match alookup ("T") [("T", [chainFile (n + 2)])] with
        | some locations => _
        | none => ResolutionResult.NotFound) = _
      rw [alookup_cons, if_pos rfl]

/-- C4 witness: the chain theorem applied at depth 3. -/
theorem claim4_wildcard_chain_depth_k_witness :
    1 ≤ 3 ∧ resolveType (chainSt 3) 0 ("T") ["src", "q.rs"] =
      .ok (.Found (chainFile 3)) :=
  ⟨by decide, claim4_wildcard_chain_depth_k 3 0 (by decide)⟩

/-- Every import path recorded in a scanned scope is non-empty. The use-tree
parser (`parse_use_tree`, resolver.rs:165) always pushes the imported name
before inserting, so every reachable resolver state satisfies this. -/
def importsWF (st : ModuleResolver) : Prop :=
  ∀ (f : PathBuf) (sc : FileScope), alookup f st.files = some sc →
    ∀ (n : String) (p : ModulePath), alookup n sc.imports = some p → p ≠ []

theorem alookup_mem {α β : Type} [DecidableEq α] (k : α) (v : β)
    (l : List (α × β)) (h : alookup k l = some v) : (k, v) ∈ l := by
  induction l with
  | nil => exact absurd h (by simp [alookup])
  | cons p rest ih =>
      rw [alookup_cons] at h
      by_cases hk : p.1 = k
      · rw [if_pos hk] at h
        have : p = (k, v) := by
          cases p
          simp_all
        simp [this]
      · rw [if_neg hk] at h
        simp [ih h]

/-- Neither `resolve_module_path` nor `resolve_path` (on a non-empty segment
list) can hit the out-of-bounds index, at any fuel, in any well-formed
state. -/
theorem resolve_no_panic_aux (st : ModuleResolver) (hwf : importsWF st) :
    ∀ fuel : Nat,
      (∀ mp : ModulePath, resolveModulePath st fuel mp ≠ .panicked)
      ∧ (∀ (segs : List String) (sc : FileScope), segs ≠ [] →
          resolvePath st fuel segs sc ≠ .panicked) := by
  intro fuel
  induction fuel with
  | zero =>
      constructor
      · intro mp
        simp [resolveModulePath]
      · intro segs sc hs
        simp [resolvePath]
  | succ n ih =>
      constructor
      · intro mp
        simp only [resolveModulePath]
        by_cases hlen : mp.length < 2
        · rw [if_pos hlen]
          simp
        · rw [if_neg hlen]
          cases hmf : alookup mp.dropLast st.module_to_file with
          | none => simp [hmf]
          | some fp =>
              simp only [hmf]
              cases hfs : alookup fp st.files with
              | none => simp [hfs]
              | some scope =>
                  simp only [hfs]
                  by_cases hloc :
                      (alookup (mp.getLast?.getD ("")) scope.local_types).isSome = true
                  · rw [if_pos hloc]
                    simp
                  · rw [if_neg hloc]
                    cases himp : alookup (mp.getLast?.getD ("")) scope.imports with
                    | none =>
                        simp only [himp]
                        cases hw : firstWildcardHit st (mp.getLast?.getD ("")) scope <;>
                          simp [hw]
                    | some ip =>
                        simp only [himp]
                        have hip : ip ≠ [] := hwf fp scope hfs _ ip himp
                        cases hr : resolvePath st n ip scope with
                        | ok r => simp [wrapROut, hr]
                        | outOfFuel => simp [wrapROut, hr]
                        | panicked => exact absurd hr (ih.2 ip scope hip)
      · intro segs sc hs
        cases segs with
        | nil => exact absurd rfl hs
        | cons first rest =>
            simp only [resolvePath]
            cases himp : alookup first sc.imports with
            | some ip =>
                simp only [himp]
                exact ih.1 (ip ++ rest)
            | none =>
                simp only [himp]
                cases hcp : resolveCanonicalPath first rest sc with
                | some p =>
                    simp only [hcp]
                    exact ih.1 p
                | none => simp [hcp]

/-- `resolve_simple_name` cannot panic in a well-formed state. -/
theorem resolveSimpleName_no_panic (st : ModuleResolver) (hwf : importsWF st)
    (fuel : Nat) (name : String) (scope : FileScope) (fromFile : PathBuf) :
    resolveSimpleName st fuel name scope fromFile ≠ .panicked := by
  unfold resolveSimpleName
  by_cases hloc : (alookup name scope.local_types).isSome = true
  · rw [if_pos hloc]
    simp
  · rw [if_neg hloc]
    cases himp : alookup name scope.imports with
    | some ip =>
        simp only [himp]
        cases hr : resolveModulePath st fuel ip with
        | ok r => simp [wrapROut, hr]
        | outOfFuel => simp [wrapROut, hr]
        | panicked => exact absurd hr ((resolve_no_panic_aux st hwf fuel).1 ip)
    | none =>
        simp only [himp]
        cases hw : firstWildcardHit st name scope <;> simp [hw]

/-- Divergence of the entry point on the cyclic state, queried from the other
file of the pair. -/
theorem cyc_resolveTypeB_diverges (fuel : Nat) :
    resolveType cycSt fuel ("T") ["src", "b.rs"] = .outOfFuel := by
  have hseg : parseSegments ("T") = ["T"] := by decide
  have hscope : alookup (["src", "b.rs"] : PathBuf) cycSt.files = some cycScopeB := by
    decide
  have hlocal : alookup ("T") cycScopeB.local_types = none := by decide
  have himp : alookup ("T") cycScopeB.imports = some ["crate", "a", "T"] := by decide
  unfold resolveType
  simp only [hseg, hscope]
  unfold resolveSimpleName
  rw [hlocal, himp]
  simp only [Option.isSome_none, Bool.false_eq_true, if_false]
  rw [(cyc_loop fuel).1]
  rfl

/-- C10, counterexample: evaluation of `resolve_type` is not total even when
the type path has a non-empty segment: on the cyclic re-export state `cycSt`
the single-segment query `T` from `src/b.rs` never returns a result at any
recursion depth. -/
theorem claim10_totality_counterexample :
    ¬ (∀ (st : ModuleResolver) (s : String) (f : PathBuf), parseSegments s ≠ [] →
        ∃ (fuel : Nat) (r : ResolutionResult), resolveType st fuel s f = .ok r) := by
  intro h
  obtain ⟨fuel, r, hr⟩ := h cycSt ("T") (["src", "b.rs"]) (by decide)
  rw [cyc_resolveTypeB_diverges fuel] at hr
  exact ROut.noConfusion hr

/-- C10, amended: in every state whose recorded import paths are non-empty
(which the use-tree parser guarantees), a `resolve_type` call whose type path
has at least one non-empty segment never hits the unguarded `segments[0]`
index — the modelled panic is unreachable — and whenever evaluation
terminates it yields one of the four `ResolutionResult` variants. Totality
itself fails on cyclic re-export graphs (see the counterexample). -/
theorem claim10_no_panic (st : ModuleResolver) (fuel : Nat) (s : String)
    (f : PathBuf) (hwf : importsWF st) (hseg : parseSegments s ≠ []) :
    resolveType st fuel s f ≠ .panicked := by
  unfold resolveType
  cases hscope : alookup f st.files with
  | none => simp [hscope]
  | some sc =>
      simp only [hscope]
      cases hsegs : parseSegments s with
      | nil => exact absurd hsegs hseg
      | cons a rest =>
          cases rest with
          | nil => exact resolveSimpleName_no_panic st hwf fuel a sc f
          | cons b rest2 =>
              exact (resolve_no_panic_aux st hwf fuel).2 (a :: b :: rest2) sc (by simp)

/-- The witness resolver `w2St` is well-formed: its only import entry has the
non-empty path `crate::u::J`. -/
theorem w2St_importsWF : importsWF w2St := by
  intro f sc h n p hp
  have hmem := alookup_mem f sc _ h
  simp only [w2St, List.mem_cons, List.not_mem_nil, or_false] at hmem
  rcases hmem with h1 | h1 | h1 <;>
    (have hsc := congrArg Prod.snd h1
     simp only at hsc
     subst hsc
     have hpm := alookup_mem n p _ hp
     simp_all [w2ScopeT, w2ScopeU, w2ScopeW])

/-- C10 witness: a multi-segment query on the well-formed witness resolver
does not panic. -/
theorem claim10_no_panic_witness :
    resolveType w2St 2 ("t::L") ["src", "t.rs"] ≠ .panicked :=
  claim10_no_panic w2St 2 ("t::L") (["src", "t.rs"]) w2St_importsWF (by decide)

/-- Once a hop has succeeded, the alias loop reports success whatever happens
afterwards. -/
theorem aliasFollow_true (st : ModuleResolver) (fuel : Nat) (fromFile : PathBuf) :
    ∀ (n : Nat) (cur : String), (aliasFollow st fuel fromFile n cur true).2 = true := by
  intro n
  induction n with
  | zero => intro cur; rfl
  | succ m ih =>
      intro cur
      unfold aliasFollow
      cases resolveSingleAlias st fuel cur fromFile with
      | none => rfl
      | some t => exact ih t

/-- Scope with a two-hop alias chain `Alias2 → Alias1 → Base` (file
`src/t.rs`, module `crate::t`). -/
def al2Scope : FileScope :=
  ⟨["crate", "t"],
   [("Alias2", .struct), ("Alias1", .struct), ("Base", .struct)], [], [],
   [("Alias2", "Alias1"), ("Alias1", "Base")]⟩

/-- Resolver holding the two-hop alias chain. -/
def al2St : ModuleResolver :=
  ⟨[(["src", "t.rs"], al2Scope)],
   [("Alias2", [["src", "t.rs"]]), ("Alias1", [["src", "t.rs"]]),
    ("Base", [["src", "t.rs"]])],
   [(["crate", "t"], ["src", "t.rs"])]⟩

/-- Scope with the cyclic alias pair `P → Q → P` (file `src/p.rs`). -/
def capScope : FileScope :=
  ⟨["crate", "p"], [("P", .struct), ("Q", .struct)], [], [],
   [("P", "Q"), ("Q", "P")]⟩

/-- Resolver holding the cyclic alias pair. -/
def capSt : ModuleResolver :=
  ⟨[(["src", "p.rs"], capScope)],
   [("P", [["src", "p.rs"]]), ("Q", [["src", "p.rs"]])],
   [(["crate", "p"], ["src", "p.rs"])]⟩

/-- Module `crate::a` (file `src/a.rs`): declares the alias
`RealAlias = Base`. -/
def c8ScopeA : FileScope :=
  ⟨["crate", "a"], [("RealAlias", .struct)], [], [], [("RealAlias", "Base")]⟩

/-- Module `crate::b` (file `src/b.rs`): imports `RealAlias` under the local
name `MyAlias` (`use crate::a::RealAlias as MyAlias`). -/
def c8ScopeB : FileScope :=
  ⟨["crate", "b"], [], [("MyAlias", ["crate", "a", "RealAlias"])], [], []⟩

/-- Resolver for the renamed-import alias corner. -/
def c8St : ModuleResolver :=
  ⟨[(["src", "a.rs"], c8ScopeA), (["src", "b.rs"], c8ScopeB)],
   [("RealAlias", [["src", "a.rs"]])],
   [(["crate", "a"], ["src", "a.rs"]), (["crate", "b"], ["src", "b.rs"])]⟩

/-- C8, counterexample: `MyAlias` is not recorded as a type alias in any
scanned file's scope — it is only a renamed import of the alias `RealAlias` —
yet `resolve_alias_target("MyAlias", src/b.rs)` returns `Some("Base")` via
the imported-alias source, so "returns None whenever the name is not recorded
as a type alias in any scanned file's scope" fails. -/
theorem claim8_alias_import_counterexample :
    resolveAliasTarget c8St 3 ("MyAlias") ["src", "b.rs"] = some ("Base")
    ∧ (c8St.files.all fun e => (alookup ("MyAlias") e.2.type_aliases).isNone) = true := by
  constructor
  · decide
  · decide

/-- C8, amended: `resolve_alias_target` returns `None` exactly when no first
hop applies — the name is not an alias in `from_file`'s scope, is not an
explicit import whose original name is an alias in its resolved source file,
and is not an alias in any other scanned file's scope (so a renamed import of
an alias does resolve, even though the local name is recorded nowhere).
Otherwise it follows the chain for at most 10 hops with a local alias taking
precedence: a 2-hop chain `Alias2 → Alias1 → Base` returns `Some(Base)`, a
cyclic chain returns the value reached after the 10th hop rather than
erroring, and the renamed import returns the imported alias's base. -/
theorem claim8_alias_chain_behavior :
    (∀ (st : ModuleResolver) (fuel : Nat) (n : String) (f : PathBuf),
        resolveAliasTarget st fuel n f = none ↔ resolveSingleAlias st fuel n f = none)
    ∧ (∀ (st : ModuleResolver) (fuel : Nat) (n : String) (f : PathBuf)
        (sc : FileScope) (t : String), alookup f st.files = some sc →
        alookup n sc.type_aliases = some t →
        resolveSingleAlias st fuel n f = some t)
    ∧ resolveAliasTarget al2St 3 ("Alias2") ["src", "t.rs"] = some ("Base")
    ∧ resolveAliasTarget al2St 3 ("Base") ["src", "t.rs"] = none
    ∧ resolveAliasTarget capSt 3 ("P") ["src", "p.rs"] = some ("P")
    ∧ resolveAliasTarget c8St 3 ("MyAlias") ["src", "b.rs"] = some ("Base") := by
  refine ⟨?_, ?_, by decide, by decide, by decide, by decide⟩
  · intro st fuel n f
    constructor
    · intro h
      cases hsa : resolveSingleAlias st fuel n f with
      | none => rfl
      | some t =>
          exfalso
          unfold resolveAliasTarget at h
          rw [show (10 : Nat) = 9 + 1 from rfl] at h
          unfold aliasFollow at h
          rw [hsa] at h
          simp only [aliasFollow_true st fuel f 9 t, if_true] at h
          exact Option.noConfusion h
    · intro hsa
      unfold resolveAliasTarget
      rw [show (10 : Nat) = 9 + 1 from rfl]
      unfold aliasFollow
      rw [hsa]
      rfl
  · intro st fuel n f sc t hsc hal
    unfold resolveSingleAlias
    simp only [hsc, hal]

/-- C8 witness: the generic parts applied at concrete inputs. -/
theorem claim8_alias_chain_behavior_witness :
    resolveSingleAlias al2St 0 ("Alias1") ["src", "t.rs"] = some ("Base")
    ∧ (resolveAliasTarget al2St 0 ("Zed") ["src", "t.rs"] = none ↔
        resolveSingleAlias al2St 0 ("Zed") ["src", "t.rs"] = none) :=
  ⟨claim8_alias_chain_behavior.2.1 al2St 0 ("Alias1") (["src", "t.rs"]) al2Scope
      ("Base") (by decide) (by decide),
   claim8_alias_chain_behavior.1 al2St 0 ("Zed") (["src", "t.rs"])⟩

/-- Real source scope: `src/sub/x.rs`, module `crate::sub::x`, declares `T`. -/
def c9ScopeX : FileScope := ⟨["crate", "sub", "x"], [("T", .struct)], [], [], []⟩

/-- Real source scope: `src/y.rs`, module `crate::y`, declares nothing. -/
def c9ScopeY : FileScope := ⟨["crate", "y"], [], [], [], []⟩

/-- The scope-less synthetic source path used for cargo-expand facts. -/
def expandPath : PathBuf := ["<cargo-expand>"]

/-- Interleaving 1: both real files are parsed before the synthetic
registration of `T`. -/
def c9RealFirst : ModuleResolver :=
  registerExpandedTypeIfMissing
    (parseFileFacts (parseFileFacts ⟨[], [], []⟩ ["src", "sub", "x.rs"] c9ScopeX)
      ["src", "y.rs"] c9ScopeY)
    ("T") expandPath

/-- Interleaving 2: the synthetic registration of `T` happens before the real
files are parsed. -/
def c9SynthFirst : ModuleResolver :=
  parseFileFacts
    (parseFileFacts (registerExpandedTypeIfMissing ⟨[], [], []⟩ ("T") expandPath)
      ["src", "sub", "x.rs"] c9ScopeX)
    ["src", "y.rs"] c9ScopeY

/-- C9, counterexample: under the interleaving that registers the synthetic
fact first, the real declaration of `T` in `src/sub/x.rs` does not win — a
bare-name query from the unrelated file `src/y.rs` returns
`Ambiguous([<cargo-expand>, src/sub/x.rs])`, not `Found(src/sub/x.rs)`. -/
theorem claim9_interleaving_counterexample :
    resolveType c9SynthFirst 2 ("T") ["src", "y.rs"] =
      .ok (.Ambiguous [expandPath, ["src", "sub", "x.rs"]])
    ∧ (ResolutionResult.Ambiguous [expandPath, ["src", "sub", "x.rs"]]) ≠
        .Found ["src", "sub", "x.rs"] := by
  constructor
  · decide
  · decide

/-- C9, amended: a synthetic name+kind fact populates the global index only
if no entry at all exists for that name. When the real source files are
registered first, the synthetic registration is a no-op and the real
declaration resolves to its real file. When the synthetic registration comes
first, the index keeps both entries, and a bare-name query from an unrelated
file is `Ambiguous` over both — the declaring file itself still resolves
locally, and no query resolves to the synthetic source. -/
theorem claim9_synthetic_priority :
    (∀ (st : ModuleResolver) (n : String) (p : PathBuf),
        (alookup n st.type_definitions).isSome = true →
        registerExpandedTypeIfMissing st n p = st)
    ∧ resolveType c9RealFirst 2 ("T") ["src", "y.rs"] =
        .ok (.Found ["src", "sub", "x.rs"])
    ∧ resolveType c9SynthFirst 2 ("T") ["src", "y.rs"] =
        .ok (.Ambiguous [expandPath, ["src", "sub", "x.rs"]])
    ∧ resolveType c9SynthFirst 2 ("T") ["src", "sub", "x.rs"] =
        .ok (.Found ["src", "sub", "x.rs"])
    ∧ resolveType c9SynthFirst 2 ("T") ["src", "y.rs"] ≠ .ok (.Found expandPath)
    ∧ resolveType c9SynthFirst 2 ("T") expandPath ≠ .ok (.Found expandPath) := by
  refine ⟨?_, by decide, by decide, by decide, by decide, by decide⟩
  intro st n p h
  unfold registerExpandedTypeIfMissing
  rw [if_pos h]

/-- C9 witness: the no-op part applied to the synthetic-first state, whose
index already holds `T`. -/
theorem claim9_synthetic_priority_witness :
    registerExpandedTypeIfMissing c9SynthFirst ("T") expandPath = c9SynthFirst :=
  claim9_synthetic_priority.1 c9SynthFirst ("T") expandPath (by decide)

/-- C5: full characterization of the collector's merge rule, which is the
only way `resolved`/`conflicts` are ever updated (`recordResolution` is the
shared body of the seeding walk and both closure blocks). An unsuccessful
resolution — in particular `NotFound` or `Ambiguous`, which the adapter maps
to `none` — changes nothing. A first successful resolution only extends
`resolved`. A repeat of the recorded file changes nothing. A second distinct
file creates the conflicts entry seeded with the originally recorded file
followed by the new file; further distinct files are appended exactly once,
and a file already listed is not appended again. `resolved[n]` itself is
never changed once set. -/
theorem claim5_conflict_recording (cs : CollectorState) (n : String) (f : PathBuf) :
    recordResolution n none cs = cs
    ∧ (∀ l : List PathBuf,
        resolutionFile (.Ambiguous l) = none ∧ resolutionFile .NotFound = none)
    ∧ (alookup n cs.resolved = none →
        recordResolution n (some f) cs =
          { cs with resolved := cs.resolved ++ [(n, f)] })
    ∧ (alookup n cs.resolved = some f → recordResolution n (some f) cs = cs)
    ∧ (∀ g, alookup n cs.resolved = some g → g ≠ f →
        alookup n cs.conflicts = none →
        recordResolution n (some f) cs =
          { cs with conflicts := cs.conflicts ++ [(n, [g, f])] })
    ∧ (∀ g l, alookup n cs.resolved = some g → g ≠ f →
        alookup n cs.conflicts = some l → f ∈ l →
        recordResolution n (some f) cs = cs)
    ∧ (∀ g l, alookup n cs.resolved = some g → g ≠ f →
        alookup n cs.conflicts = some l → f ∉ l →
        recordResolution n (some f) cs =
          { cs with conflicts := ainsert n (l ++ [f]) cs.conflicts }) := by
  refine ⟨rfl, fun l => ⟨rfl, rfl⟩, ?_, ?_, ?_, ?_, ?_⟩
  · intro hres
    unfold recordResolution
    simp only [hres]
  · intro hres
    unfold recordResolution
    simp only [hres]
    simp
  · intro g hres hne hc
    unfold recordResolution
    simp only [hres]
    rw [if_neg hne]
    simp only [hc]
  · intro g l hres hne hc hmem
    unfold recordResolution
    simp only [hres]
    rw [if_neg hne]
    simp only [hc]
    rw [if_pos hmem]
  · intro g l hres hne hc hmem
    unfold recordResolution
    simp only [hres]
    rw [if_neg hne]
    simp only [hc]
    rw [if_neg hmem]

/-- Concrete collector state for the C5 witness: `N` already resolved to
`src/x.rs`, no conflicts yet. -/
def c5Wcs : CollectorState := ⟨[("N", ["src", "x.rs"])], []⟩

/-- C5 witness: each clause of the merge rule exercised concretely — dropped
`none`, fresh insertion, repeat of the same file, and first divergence
seeding the conflict list with the original file. -/
theorem claim5_conflict_recording_witness :
    recordResolution ("N") none c5Wcs = c5Wcs
    ∧ recordResolution ("M") (some ["src", "y.rs"]) c5Wcs =
        ⟨[("N", ["src", "x.rs"]), ("M", ["src", "y.rs"])], []⟩
    ∧ recordResolution ("N") (some ["src", "x.rs"]) c5Wcs = c5Wcs
    ∧ recordResolution ("N") (some ["src", "y.rs"]) c5Wcs =
        ⟨[("N", ["src", "x.rs"])], [("N", [["src", "x.rs"], ["src", "y.rs"]])]⟩ :=
  ⟨(claim5_conflict_recording c5Wcs ("N") (["src", "y.rs"])).1,
   ((claim5_conflict_recording c5Wcs ("M") (["src", "y.rs"])).2.2.1
      (by decide)).trans (by decide),
   (claim5_conflict_recording c5Wcs ("N") (["src", "x.rs"])).2.2.2.1 (by decide),
   ((claim5_conflict_recording c5Wcs ("N") (["src", "y.rs"])).2.2.2.2.1
      (["src", "x.rs"]) (by decide) (by decide) (by decide)).trans (by decide)⟩

/-- File `src/x.rs`, module `crate::x`: declares `Item` and `Tag`. -/
def c6XFile : PathBuf := ["src", "x.rs"]

/-- File `src/y.rs`, module `crate::y`: imports only `Item` from `crate::x`. -/
def c6YFile : PathBuf := ["src", "y.rs"]

/-- Scope of `src/x.rs` for the closure scenarios. -/
def c6ScopeX : FileScope :=
  ⟨["crate", "x"], [("Item", .struct), ("Tag", .struct)], [], [], []⟩

/-- Scope of `src/y.rs` for the closure scenarios. -/
def c6ScopeY : FileScope :=
  ⟨["crate", "y"], [], [("Item", ["crate", "x", "Item"])], [], []⟩

/-- Resolver for the basic closure scenario (spec Scenario C). -/
def c6StA : ModuleResolver :=
  ⟨[(c6XFile, c6ScopeX), (c6YFile, c6ScopeY)],
   [("Item", [c6XFile]), ("Tag", [c6XFile])],
   [(["crate", "x"], c6XFile), (["crate", "y"], c6YFile)]⟩

/-- Facts for Scenario C: a command in `src/y.rs` returns `Item`;
`Item { tag: Tag }` and `Tag` are declared in `src/x.rs`. -/
def c6PrA : ParseResult :=
  ⟨[⟨"get_item", [], some (.custom ("Item")), c6YFile⟩],
   [⟨"Item", [⟨"tag", .custom ("Tag")⟩], c6XFile⟩, ⟨"Tag", [], c6XFile⟩], []⟩

/-- Third file `src/w.rs` declaring a second `Tag`, making the bare name
globally ambiguous. -/
def c6WFile : PathBuf := ["src", "w.rs"]

/-- Scope of `src/w.rs`. -/
def c6ScopeW : FileScope := ⟨["crate", "w"], [("Tag", .struct)], [], [], []⟩

/-- Resolver with two declarations of `Tag` (in `crate::x` and `crate::w`),
both siblings of the querying module `crate::y`. -/
def c6StB : ModuleResolver :=
  ⟨[(c6XFile, c6ScopeX), (c6YFile, c6ScopeY), (c6WFile, c6ScopeW)],
   [("Item", [c6XFile]), ("Tag", [c6XFile, c6WFile])],
   [(["crate", "x"], c6XFile), (["crate", "y"], c6YFile), (["crate", "w"], c6WFile)]⟩

/-- Facts for the owning-file scenario: as Scenario C plus the second `Tag`
declaration in `src/w.rs`. -/
def c6PrB : ParseResult :=
  ⟨[⟨"get_item", [], some (.custom ("Item")), c6YFile⟩],
   [⟨"Item", [⟨"tag", .custom ("Tag")⟩], c6XFile⟩, ⟨"Tag", [], c6XFile⟩,
    ⟨"Tag", [], c6WFile⟩], []⟩

/-- Facts with a mutual field cycle `Item { tag: Tag }`, `Tag { item: Item }`,
both in `src/x.rs`, seeded from a command in that file. -/
def c6PrC : ParseResult :=
  ⟨[⟨"get_item", [], some (.custom ("Item")), c6XFile⟩],
   [⟨"Item", [⟨"tag", .custom ("Tag")⟩], c6XFile⟩,
    ⟨"Tag", [⟨"item", .custom ("Item")⟩], c6XFile⟩], []⟩

/-- C6: the closure phase resolves nested field types with the declaration's
owning file — not the original call site — as context, expands each distinct
`(name, file)` pair at most once, and includes every transitively reachable
custom type. Scenario C: a command in `src/y.rs` (which imports only `Item`)
returning `Item` pulls in `Tag` resolved to `src/x.rs` although `src/y.rs`
never imports `Tag`. Discrimination: with a second global `Tag` the call-site
context `src/y.rs` would give `Ambiguous` (dropped), yet the closure still
resolves `Tag` to `src/x.rs` through the owning file, conflict-free. Cycle:
with `Item` and `Tag` referencing each other the run reaches a fixed point
(more fuel changes nothing) because a processed pair is never expanded
again. -/
theorem claim6_closure_owning_file :
    (seedTypes (resolveVia c6StA 6) c6PrA.commands).resolved = [("Item", c6XFile)]
    ∧ collectUsedTypes (resolveVia c6StA 6) c6PrA [("Item", c6XFile)] 10 =
        ⟨[("Item", c6XFile), ("Tag", c6XFile)], []⟩
    ∧ resolveType c6StB 6 ("Tag") c6YFile = .ok (.Ambiguous [c6XFile, c6WFile])
    ∧ resolveVia c6StB 6 ("Tag") c6YFile = none
    ∧ resolveType c6StB 6 ("Tag") c6XFile = .ok (.Found c6XFile)
    ∧ collectUsedTypes (resolveVia c6StB 6) c6PrB [("Item", c6XFile)] 10 =
        ⟨[("Item", c6XFile), ("Tag", c6XFile)], []⟩
    ∧ collectUsedTypes (resolveVia c6StA 6) c6PrC [("Item", c6XFile)] 10 =
        ⟨[("Item", c6XFile), ("Tag", c6XFile)], []⟩
    ∧ collectUsedTypes (resolveVia c6StA 6) c6PrC [("Item", c6XFile)] 10 =
        collectUsedTypes (resolveVia c6StA 6) c6PrC [("Item", c6XFile)] 40 := by
  refine ⟨by decide, by decide, by decide, by decide, by decide, by decide,
    by decide, by decide⟩

/-- File `src/x.rs` of the order-dependence example: declares `A` and its own
`N`. -/
def c7XFile : PathBuf := ["src", "x.rs"]

/-- File `src/y.rs` of the order-dependence example: declares `B` and its own
`N`. -/
def c7YFile : PathBuf := ["src", "y.rs"]

/-- Scope of `src/x.rs`. -/
def c7ScopeX : FileScope :=
  ⟨["crate", "x"], [("A", .struct), ("N", .struct)], [], [], []⟩

/-- Scope of `src/y.rs`. -/
def c7ScopeY : FileScope :=
  ⟨["crate", "y"], [("B", .struct), ("N", .struct)], [], [], []⟩

/-- Resolver for the order-dependence example: `N` is declared in both
files. -/
def c7St : ModuleResolver :=
  ⟨[(c7XFile, c7ScopeX), (c7YFile, c7ScopeY)],
   [("A", [c7XFile]), ("N", [c7XFile, c7YFile]), ("B", [c7YFile])],
   [(["crate", "x"], c7XFile), (["crate", "y"], c7YFile)]⟩

/-- Facts: one command per file; `A { n: N }` in `src/x.rs` and `B { n: N }`
in `src/y.rs`, each `N` resolving locally in its own file. -/
def c7Pr : ParseResult :=
  ⟨[⟨"ca", [], some (.custom ("A")), c7XFile⟩,
    ⟨"cb", [], some (.custom ("B")), c7YFile⟩],
   [⟨"A", [⟨"n", .custom ("N")⟩], c7XFile⟩,
    ⟨"B", [⟨"n", .custom ("N")⟩], c7YFile⟩,
    ⟨"N", [], c7XFile⟩, ⟨"N", [], c7YFile⟩], []⟩

/-- The seeded worklist in one incidental iteration order. -/
def c7Order1 : List (String × PathBuf) := [("A", c7XFile), ("B", c7YFile)]

/-- The same seeded worklist in the other iteration order. -/
def c7Order2 : List (String × PathBuf) := [("B", c7YFile), ("A", c7XFile)]

/-- C7, counterexample: the collector's output is not independent of the
worklist-processing order. On identical frozen facts, the two permutations
of the seeded worklist produce different `resolved`/`conflicts` maps (the
Rust worklist is seeded from `HashMap` iteration, an incidental order). -/
theorem claim7_order_dependence_counterexample :
    (seedTypes (resolveVia c7St 6) c7Pr.commands).resolved = c7Order1
    ∧ c7Order1.Perm c7Order2
    ∧ collectUsedTypes (resolveVia c7St 6) c7Pr c7Order1 10 ≠
        collectUsedTypes (resolveVia c7St 6) c7Pr c7Order2 10 := by
  refine ⟨by decide, by decide, by decide⟩

/-- C7, amended: for a fixed worklist-processing order the collector is a
deterministic function of its inputs (re-running with the same order
reproduces the result, and fuel beyond the worklist's needs changes
nothing), but the output does depend on the incidental order: when a name
has conflicting resolutions, which file lands in `resolved[N]` and the file
order inside `conflicts[N]` follow the processing order — while the set of
conflicting names is the same either way. -/
theorem claim7_collector_order_effects :
    (collectUsedTypes (resolveVia c7St 6) c7Pr c7Order1 10).resolved =
      [("A", c7XFile), ("B", c7YFile), ("N", c7XFile)]
    ∧ (collectUsedTypes (resolveVia c7St 6) c7Pr c7Order2 10).resolved =
        [("A", c7XFile), ("B", c7YFile), ("N", c7YFile)]
    ∧ (collectUsedTypes (resolveVia c7St 6) c7Pr c7Order1 10).conflicts =
        [("N", [c7XFile, c7YFile])]
    ∧ (collectUsedTypes (resolveVia c7St 6) c7Pr c7Order2 10).conflicts =
        [("N", [c7YFile, c7XFile])]
    ∧ (collectUsedTypes (resolveVia c7St 6) c7Pr c7Order1 10).conflicts.map
        Prod.fst =
        (collectUsedTypes (resolveVia c7St 6) c7Pr c7Order2 10).conflicts.map
          Prod.fst
    ∧ collectUsedTypes (resolveVia c7St 6) c7Pr c7Order1 10 =
        collectUsedTypes (resolveVia c7St 6) c7Pr c7Order1 40 := by
  refine ⟨by decide, by decide, by decide, by decide, by decide, by decide⟩
